import Mathlib

/-!
Shallow embedding of the DoIP server emulator (`doip_server.py`) and proofs
about its observable behaviour: the wire codec, the response-catalog loader,
the UDS response synthesizer, and the TCP/UDP message handlers.

Bytes are modelled as `Nat` values (meaningful values are `< 256`); byte
strings are `List Nat`.  Fallible Python code (raised exceptions) is modelled
with `Except String`; `None` results are `Option.none`.  Messages written to a
socket are collected in a list, in write order.
-/

namespace DoIPServer

/-- Big-endian 2-byte encoding: `struct.pack` format `>H`
(doip_server.py lines 181, 297, 317-318, 354, 361). -/
def pack16 (n : Nat) : List Nat := [n / 256 % 256, n % 256]

/-- Big-endian 4-byte encoding: the `I` (payload length) field of
`struct.pack` format `>BBHI` (doip_server.py line 452). -/
def pack32 (n : Nat) : List Nat :=
  [n / 16777216 % 256, n / 65536 % 256, n / 256 % 256, n % 256]

/-- A DoIP message as handed to `send_doip_message` /
`send_udp_doip_message`: payload type plus payload bytes. -/
structure Msg where
  payloadType : Nat
  payload : List Nat
  deriving DecidableEq, Repr

/-- UDS address classification computed in `handle_diagnostic_message`
(doip_server.py lines 343-352). -/
inductive AddrType
  | physical
  | functional
  | unknown
  deriving DecidableEq, Repr

/-- The server state relevant to message handling: the two logical addresses
and the loaded response catalog (`self.server_addr`, `self.server_addr_func`,
`self.response_config`, doip_server.py lines 22-23, 30). -/
structure Srv where
  server_addr : Nat
  server_addr_func : Nat
  response_config : List (String × String)

/-- `DOIP_VERSION = 0x03` (doip_server.py line 33). -/
def DOIP_VERSION : Nat := 0x03

/-- `DOIP_INVERSE_VERSION = 0xFC` (doip_server.py line 34). -/
def DOIP_INVERSE_VERSION : Nat := 0xFC

/-- Value of an ASCII hex-digit character, `none` for every other character. -/
def hexVal (c : Char) : Option Nat :=
  if 48 ≤ c.toNat ∧ c.toNat ≤ 57 then some (c.toNat - 48)
  else if 65 ≤ c.toNat ∧ c.toNat ≤ 70 then some (c.toNat - 55)
  else if 97 ≤ c.toNat ∧ c.toNat ≤ 102 then some (c.toNat - 87)
  else none

/-- Upper-case hex digit for a value `< 16` (the digits produced by
Python's `bytes.hex()` followed by `.upper()`). -/
def hexDigitUpper (n : Nat) : Char :=
  if n < 10 then Char.ofNat (48 + n) else Char.ofNat (55 + n)

/-- The two upper-case hex digits of one byte. -/
def byteToHexUpper (b : Nat) : List Char :=
  [hexDigitUpper (b / 16 % 16), hexDigitUpper (b % 16)]

/-- `data.hex().upper()` (doip_server.py line 372): upper-case hex string of a
byte string. -/
def bytesToHexUpper (bs : List Nat) : String :=
  String.mk (bs.flatMap byteToHexUpper)

/-- `bytes.fromhex` on a list of characters: pairs of hex digits; an odd
count or a non-hex-digit character is a `ValueError` (`none`).  (Python also
skips ASCII whitespace between pairs; the strings this development quantifies
over contain hex digits only, where the two functions agree.) -/
def fromhexChars : List Char → Option (List Nat)
  | [] => some []
  | [_] => none
  | c1 :: c2 :: rest =>
    match hexVal c1, hexVal c2, fromhexChars rest with
    | some h, some l, some bs => some ((16 * h + l) :: bs)
    | _, _, _ => none

/-- Python `str.upper()` on an ASCII string: upper-case every character
(modelled over the character list; ASCII-faithful). -/
def pyUpper (s : String) : String := ⟨s.data.map Char.toUpper⟩

/-- `bytes.fromhex(s)` (doip_server.py line 379). -/
def fromhex (s : String) : Option (List Nat) :=
  fromhexChars s.data

/-- Python `dict` assignment `d[k] = v`: overwrite in place when the key is
present, append otherwise (insertion order is preserved). -/
def dictInsert (d : List (String × String)) (k v : String) :
    List (String × String) :=
  if (d.find? (fun p => p.1 == k)).isSome then
    d.map (fun p => if p.1 == k then (k, v) else p)
  else d ++ [(k, v)]

/-- Python `dict` lookup `d[k]` / membership `k in d`: the value stored at
`k`, if any. -/
def dictGet (d : List (String × String)) (k : String) : Option String :=
  (d.find? (fun p => p.1 == k)).map (fun p => p.2)

/-- The possible outcomes of opening and JSON-parsing the response
configuration file, as distinguished by `load_response_config`
(doip_server.py lines 44-65): `FileNotFoundError`, `json.JSONDecodeError`,
any other exception, or a successfully parsed list of `{req, res}` records
(both fields strings). -/
inductive LoadInput
  | fileNotFound
  | jsonDecodeError
  | otherError
  | parsedList (items : List (String × String))

/-- `load_response_config` (doip_server.py lines 44-65): on any exception the
catalog is `{}`; otherwise each record stores
`config_dict[item.req.upper()] = item.res.upper()` in order
(`str.upper()` as `pyUpper`). -/
def load_response_config : LoadInput → List (String × String)
  | .fileNotFound => []
  | .jsonDecodeError => []
  | .otherError => []
  | .parsedList items =>
    items.foldl (fun d item => dictInsert d (pyUpper item.1) (pyUpper item.2)) []

/-- The wire frame built by `send_doip_message` / `send_udp_doip_message`
(doip_server.py lines 451-459, 191-200): 8-byte header
`version | inverse-version | type (>H) | length (>I)` followed by the
payload. -/
def send_doip_message_bytes (payload_type : Nat) (payload_data : List Nat) :
    List Nat :=
  [DOIP_VERSION, DOIP_INVERSE_VERSION] ++ pack16 payload_type ++
    pack32 payload_data.length ++ payload_data

/-- Header decoding as performed by `handle_tcp_client` and
`handle_udp_messages` (`struct.unpack` format `>BBHI`, doip_server.py lines
254, 140): the first 8 bytes yield
`(version, inverse-version, payload type, payload length)`; fewer than
8 bytes yield nothing. -/
def decode_doip_header (data : List Nat) : Option (Nat × Nat × Nat × Nat) :=
  match data with
  | v :: iv :: t1 :: t2 :: l1 :: l2 :: l3 :: l4 :: _ =>
    some (v, iv, t1 * 256 + t2, ((l1 * 256 + l2) * 256 + l3) * 256 + l4)
  | _ => none

/-- `b'\x12\x34\x56\x78\x9A\xBC\xDE\xF0' * 2`, the synthetic SecurityAccess
seed (doip_server.py line 412). -/
def seedBytes : List Nat :=
  [0x12, 0x34, 0x56, 0x78, 0x9A, 0xBC, 0xDE, 0xF0,
   0x12, 0x34, 0x56, 0x78, 0x9A, 0xBC, 0xDE, 0xF0]

/-- The short-circuit conjunction
`request_data[0] == 0x31 and request_data[1] == 0x01 and
 request_data[2] == b2v and request_data[3] == b3v`
(doip_server.py lines 426-427 with `b2v = 0xDD, b3v = 0x02`, lines 444-445
with `b2v = 0xFF, b3v = 0x00`).  Indexing past the end of `request_data` is
an uncaught `IndexError`; a byte is only indexed when every comparison to its
left was true. -/
def routine31Check (request_data : List Nat) (b2v b3v : Nat) :
    Except String Bool :=
  if request_data.get? 0 = some 0x31 then
    match request_data.get? 1 with
    | none => .error "IndexError"
    | some b1 =>
      if b1 = 0x01 then
        match request_data.get? 2 with
        | none => .error "IndexError"
        | some b2 =>
          if b2 = b2v then
            match request_data.get? 3 with
            | none => .error "IndexError"
            | some b3 => .ok (decide (b3 = b3v))
          else .ok false
      else .ok false
  else .ok false

/-- The trailing rules of `generate_default_diagnostic_response`
(doip_server.py lines 426-449): RoutineControl `31 01 DD 02`, RequestDownload
`0x34`, TransferData `0x36`, RequestTransferExit `0x37`, RoutineControl
`31 01 FF 00`, and finally the negative response `7F [sid] 11`. -/
def defaultResponseTail (request_data : List Nat) (service_id : Nat) :
    Except String (Option (List Nat)) :=
  match routine31Check request_data 0xDD 0x02 with
  | .error e => .error e
  | .ok true => .ok (some [0x71, 0x01, 0xDD, 0x02, 0x00])
  | .ok false =>
    if 0 < request_data.length ∧ service_id = 0x34 ∧ 1 < request_data.length
    then .ok (some [0x74, 0x40, 0x00, 0x00, 0x3F, 0x02])
    else if 0 < request_data.length ∧ service_id = 0x36 ∧
        1 < request_data.length then
      match request_data.get? 1 with
      | some seq => .ok (some [0x76, seq])
      | none => .error "IndexError"
    else if 0 < request_data.length ∧ service_id = 0x37 then
      .ok (some [0x77])
    else
      match routine31Check request_data 0xFF 0x00 with
      | .error e => .error e
      | .ok true => .ok (some [0x71, 0x01, 0xFF, 0x00, 0x00])
      | .ok false => .ok (some [0x7F, service_id, 0x11])

/-- `generate_default_diagnostic_response` (doip_server.py lines 387-449).
`service_id = request_data[0]` (an `IndexError` on an empty request).  The
`if/elif` chain: TesterPresent suppression for functional and physical
addressing, then DiagnosticSessionControl (`request_data[1:2]` is a slice, so
no length check), ReadDataByIdentifier (`len ≥ 3`), SecurityAccess (`len ≥ 2`,
odd level gets a seed), the `0x3E` rule reached only with `unknown`
addressing, ECU Reset (`len ≥ 2`); any branch that returns nothing falls
through to `defaultResponseTail`. -/
def generate_default_diagnostic_response (request_data : List Nat)
    (address_type : AddrType) : Except String (Option (List Nat)) :=
  match request_data.get? 0 with
  | none => .error "IndexError"
  | some service_id =>
    if address_type = .functional ∧ service_id = 0x3E then .ok none
    else if address_type = .physical ∧ service_id = 0x3E then .ok none
    else if service_id = 0x10 then
      .ok (some ([0x50] ++ (request_data.drop 1).take 1 ++
        [0x00, 0x32, 0x01, 0xF4]))
    else if service_id = 0x22 ∧ 3 ≤ request_data.length then
      .ok (some ([0x62] ++ (request_data.drop 1).take 2 ++
        [0x01, 0x02, 0x03, 0x04]))
    else if service_id = 0x27 ∧ 2 ≤ request_data.length then
      match request_data.get? 1 with
      | some level =>
        if level % 2 = 1 then .ok (some ([0x67, level] ++ seedBytes))
        else .ok (some [0x67, level])
      | none => .error "IndexError"
    else if service_id = 0x3E then
      .ok (if address_type = .physical then some [0x7E] else none)
    else if service_id = 0x11 ∧ 2 ≤ request_data.length then
      match request_data.get? 1 with
      | some reset_type => .ok (some [0x51, reset_type])
      | none => .error "IndexError"
    else defaultResponseTail request_data service_id

/-- `generate_diagnostic_response` (doip_server.py lines 368-385): empty
requests get `None`; a catalog hit is converted with `bytes.fromhex`
(a `ValueError` is caught and yields `None`); otherwise the default
synthesizer runs. -/
def generate_diagnostic_response (cfg : List (String × String))
    (request_data : List Nat) (address_type : AddrType) :
    Except String (Option (List Nat)) :=
  if request_data.length = 0 then .ok none
  else
    match dictGet cfg (bytesToHexUpper request_data) with
    | some response_hex =>
      match fromhex response_hex with
      | some bs => .ok (some bs)
      | none => .ok none
    | none => generate_default_diagnostic_response request_data address_type

/-- `handle_diagnostic_message` (doip_server.py lines 333-366).  A payload of
at least 4 bytes is split into source address, target address and user data;
the address type is classified against the server addresses; the `0x8002` ACK
`source | target | 0x00` is always written first; non-empty user data is
passed to the responder, whose exception (if any) propagates after the ACK;
a non-empty (truthy) response is wrapped as `0x8001` with
`source = server_addr`, `target = original source`.  Shorter payloads are
only logged. -/
def handle_diagnostic_message (srv : Srv) (payload_data : List Nat) :
    List Msg × Except String Unit :=
  match payload_data with
  | s1 :: s2 :: t1 :: t2 :: user_data =>
    let source_address := s1 * 256 + s2
    let target_address := t1 * 256 + t2
    let address_type :=
      if target_address = srv.server_addr then AddrType.physical
      else if target_address = srv.server_addr_func then AddrType.functional
      else AddrType.unknown
    let ack : Msg :=
      ⟨0x8002, pack16 source_address ++ pack16 target_address ++ [0x00]⟩
    match user_data with
    | [] => ([ack], .ok ())
    | _ :: _ =>
      match generate_diagnostic_response srv.response_config user_data
          address_type with
      | .error e => ([ack], .error e)
      | .ok none => ([ack], .ok ())
      | .ok (some response_data) =>
        match response_data with
        | [] => ([ack], .ok ())
        | _ :: _ =>
          ([ack, ⟨0x8001, pack16 srv.server_addr ++ pack16 source_address ++
            response_data⟩], .ok ())
  | _ => ([], .ok ())

/-- `handle_routing_activation_request` (doip_server.py lines 307-331).  A
payload of at least 4 bytes yields the `0x0006` response
`source (>H) | server_addr (>H) | 0x10 | 00 00 00 00` and marks the session
routing-activated (the returned flag); shorter payloads are only logged. -/
def handle_routing_activation_request (srv : Srv) (payload_data : List Nat) :
    List Msg × Bool :=
  match payload_data with
  | b0 :: b1 :: _ :: _ :: _ =>
    let source_address := b0 * 256 + b1
    ([⟨0x0006, pack16 source_address ++ pack16 srv.server_addr ++
      [0x10] ++ [0x00, 0x00, 0x00, 0x00]⟩], true)
  | _ => ([], false)

/-- `'1HGBH41JXMN109186'` as bytes (doip_server.py lines 180, 296). -/
def vinBytes : List Nat := "1HGBH41JXMN109186".data.map Char.toNat

/-- `b'\x01\x02\x03\x04\x05\x06'` (doip_server.py lines 182, 298). -/
def eidBytes : List Nat := [0x01, 0x02, 0x03, 0x04, 0x05, 0x06]

/-- `b'\x07\x08\x09\x0A\x0B\x0C'` (doip_server.py lines 183, 299). -/
def gidBytes : List Nat := [0x07, 0x08, 0x09, 0x0A, 0x0B, 0x0C]

/-- The vehicle identification response payload that the dead code of both
vehicle-identification handlers builds (doip_server.py lines 180-186,
296-302): `VIN(17) | server_addr (>H) | EID(6) | GID(6) | further_action`. -/
def vehicleIdentPayload (server_addr : Nat) : List Nat :=
  vinBytes ++ pack16 server_addr ++ eidBytes ++ gidBytes ++ [0x00]

/-- `handle_vehicle_identification_request` (doip_server.py lines 293-305).
Its first statement is `lself.log_message.emit(...)`: the name `lself` is
undefined, so the handler raises `NameError` before anything is sent; the
response construction below it (lines 296-304) is dead code. -/
def handle_vehicle_identification_request (_payload_data : List Nat) :
    List Msg × Except String Unit :=
  ([], .error "NameError: name lself is not defined")

/-- `handle_udp_vehicle_identification_request` (doip_server.py lines
177-189).  Its first statement is `log_message.emit(...)` with no `self.`:
the name `log_message` is undefined, so the handler raises `NameError`
before anything is sent; lines 180-188 are dead code. -/
def handle_udp_vehicle_identification_request (_payload_data : List Nat) :
    List Msg × Except String Unit :=
  ([], .error "NameError: name log_message is not defined")

/-- `process_udp_doip_message` (doip_server.py lines 167-175).  Payload type
`0x0001` is dispatched to the (failing) UDP vehicle-identification handler;
every other type reaches `log_message.emit(...)` on line 175, again an
undefined name, so it also raises `NameError`. -/
def process_udp_doip_message (payload_type : Nat) (payload_data : List Nat) :
    List Msg × Except String Unit :=
  if payload_type = 0x0001 then
    handle_udp_vehicle_identification_request payload_data
  else ([], .error "NameError: name log_message is not defined")

/-- One iteration of `handle_udp_messages` (doip_server.py lines 134-163) on
a received datagram: at least 8 bytes are required, the header is unpacked
(`>BBHI`) with no version check, `payload_data = data[8 : 8 + length]`, and
the message is processed.  The surrounding `except Exception` catches any
exception and continues the loop, so an `.error` outcome means nothing was
sent for this datagram. -/
def handle_udp_datagram (data : List Nat) : List Msg × Except String Unit :=
  match data with
  | _v :: _iv :: t1 :: t2 :: l1 :: l2 :: l3 :: l4 :: rest =>
    let payload_type := t1 * 256 + t2
    let payload_length := ((l1 * 256 + l2) * 256 + l3) * 256 + l4
    process_udp_doip_message payload_type (rest.take payload_length)
  | _ => ([], .ok ())

/-- `process_tcp_doip_message` (doip_server.py lines 283-291): dispatch on
the payload type; unknown types are only logged. -/
def process_tcp_doip_message (srv : Srv) (payload_type : Nat)
    (payload_data : List Nat) : List Msg × Except String Unit :=
  if payload_type = 0x0001 then
    handle_vehicle_identification_request payload_data
  else if payload_type = 0x0005 then
    ((handle_routing_activation_request srv payload_data).1, .ok ())
  else if payload_type = 0x8001 then
    handle_diagnostic_message srv payload_data
  else ([], .ok ())

/-- The receive loop of `handle_tcp_client` (doip_server.py lines 248-272)
over the byte stream of one TCP session.  Each iteration reads an 8-byte
header exactly (`receive_exact`), unpacks `>BBHI` with no version check,
reads `payload_length` bytes exactly, and processes the message; a short
read breaks the loop, and an exception is caught at line 266 and closes the
connection.  The result lists every message written on the session, in
order. -/
def tcp_session (srv : Srv) (stream : List Nat) :
    List Msg × Except String Unit :=
  match stream with
  | _v :: _iv :: t1 :: t2 :: l1 :: l2 :: l3 :: l4 :: rest =>
    let payload_type := t1 * 256 + t2
    let payload_length := ((l1 * 256 + l2) * 256 + l3) * 256 + l4
    if payload_length ≤ rest.length then
      match process_tcp_doip_message srv payload_type
          (rest.take payload_length) with
      | (sent, .ok ()) =>
        let next := tcp_session srv (rest.drop payload_length)
        (sent ++ next.1, next.2)
      | (sent, .error e) => (sent, .error e)
    else ([], .ok ())
  | _ => ([], .ok ())
termination_by stream.length
decreasing_by simp [List.length_drop]; omega

/-- The server built with the constructor defaults
`server_addr = 0x1001`, `server_addr_func = 0x1FFF` (doip_server.py line 18)
and an empty catalog. -/
def srvEmpty : Srv := ⟨0x1001, 0x1FFF, []⟩

/-- The default server loaded with a catalog containing an empty response
string and an empty request string. -/
def srvEmptyEntries : Srv :=
  ⟨0x1001, 0x1FFF, load_response_config (.parsedList [("3e80", ""), ("", "50")])⟩

/-- `handle_diagnostic_message` writes nothing when the payload is shorter
than the 4 address bytes (doip_server.py lines 336, 365-366). -/
theorem handle_diag_short (srv : Srv) (p : List Nat) (h : p.length < 4) :
    handle_diagnostic_message srv p = ([], .ok ()) := by
  rcases p with _ | ⟨a, _ | ⟨b, _ | ⟨c, _ | ⟨d, p⟩⟩⟩⟩
  · rfl
  · rfl
  · rfl
  · rfl
  · simp at h; omega

/-- **C8**: For every 16-bit payload type and every payload shorter than
`2^32`, decoding the header of the encoded frame returns the version bytes,
the same payload type and a declared length equal to the payload length, and
the bytes after the 8-byte header are exactly the payload. -/
theorem decode_encode_roundtrip (payload_type : Nat) (payload_data : List Nat)
    (ht : payload_type < 65536) (hl : payload_data.length < 4294967296) :
    decode_doip_header (send_doip_message_bytes payload_type payload_data) =
      some (DOIP_VERSION, DOIP_INVERSE_VERSION, payload_type,
        payload_data.length) ∧
    (send_doip_message_bytes payload_type payload_data).drop 8 =
      payload_data := by
  constructor
  · simp only [send_doip_message_bytes, pack16, pack32, decode_doip_header,
      List.cons_append, List.nil_append, Option.some.injEq, Prod.mk.injEq,
      DOIP_VERSION, DOIP_INVERSE_VERSION]
    refine ⟨trivial, trivial, ?_, ?_⟩ <;> omega
  · simp [send_doip_message_bytes, pack16, pack32]

/-- Witness for `decode_encode_roundtrip` at payload type `0x8001` and
payload `3E 80`. -/
theorem decode_encode_roundtrip_witness :
    (0x8001 : Nat) < 65536 ∧ ([0x3E, 0x80] : List Nat).length < 4294967296 ∧
    (decode_doip_header (send_doip_message_bytes 0x8001 [0x3E, 0x80]) =
      some (DOIP_VERSION, DOIP_INVERSE_VERSION, 0x8001,
        ([0x3E, 0x80] : List Nat).length) ∧
    (send_doip_message_bytes 0x8001 [0x3E, 0x80]).drop 8 = [0x3E, 0x80]) :=
  ⟨by decide, by decide,
   decode_encode_roundtrip 0x8001 [0x3E, 0x80] (by decide) (by decide)⟩

/-- **C5**: A Routing Activation Request with at least 4 payload bytes is
answered with a `0x0006` message whose payload echoes the two source-address
bytes, then the server address big-endian, response code `0x10` and four
reserved zero bytes, and the session is marked routing-activated; a shorter
payload produces no response at all. -/
theorem routing_activation_behaviour (srv : Srv) (b0 b1 b2 b3 : Nat)
    (rest : List Nat) (h0 : b0 < 256) (h1 : b1 < 256) :
    handle_routing_activation_request srv (b0 :: b1 :: b2 :: b3 :: rest) =
      ([⟨0x0006, [b0, b1] ++ pack16 srv.server_addr ++
        [0x10, 0x00, 0x00, 0x00, 0x00]⟩], true) ∧
    ∀ p : List Nat, p.length < 4 →
      handle_routing_activation_request srv p = ([], false) := by
  constructor
  · simp only [handle_routing_activation_request, pack16, List.cons_append,
      List.nil_append, Prod.mk.injEq, List.cons.injEq, Msg.mk.injEq,
      and_true, true_and]
    omega
  · intro p hp
    rcases p with _ | ⟨a, _ | ⟨b, _ | ⟨c, _ | ⟨d, p⟩⟩⟩⟩
    · rfl
    · rfl
    · rfl
    · rfl
    · simp at hp; omega

/-- Witness for `routing_activation_behaviour`: the spec scenario payload
`0E 80 00 00 00 00 00` and the short payload `0E`. -/
theorem routing_activation_behaviour_witness :
    (0x0E : Nat) < 256 ∧ (0x80 : Nat) < 256 ∧
    handle_routing_activation_request srvEmpty
        [0x0E, 0x80, 0x00, 0x00, 0x00, 0x00, 0x00] =
      ([⟨0x0006, [0x0E, 0x80] ++ pack16 srvEmpty.server_addr ++
        [0x10, 0x00, 0x00, 0x00, 0x00]⟩], true) ∧
    handle_routing_activation_request srvEmpty [0x0E] = ([], false) :=
  ⟨by decide, by decide,
   (routing_activation_behaviour srvEmpty 0x0E 0x80 0x00 0x00
     [0x00, 0x00, 0x00] (by decide) (by decide)).1,
   (routing_activation_behaviour srvEmpty 0x0E 0x80 0x00 0x00
     [0x00, 0x00, 0x00] (by decide) (by decide)).2 [0x0E] (by decide)⟩

/-- **C4** (code bug): on the 2-byte request `31 01` the default synthesizer
raises `IndexError` (`request_data[2]` in the unguarded RoutineControl check,
doip_server.py lines 426-427) instead of returning `7F 31 11`; on requests
matching no rule, such as `7A 00`, it does return `7F [sid] 11`. -/
theorem default_synth_oob_on_31_01 :
    generate_default_diagnostic_response [0x31, 0x01] AddrType.physical =
      .error "IndexError" ∧
    generate_default_diagnostic_response [0x31, 0x01, 0xFF]
      AddrType.physical = .error "IndexError" ∧
    generate_default_diagnostic_response [0x7A, 0x00] AddrType.physical =
      .ok (some [0x7F, 0x7A, 0x11]) := by
  refine ⟨rfl, rfl, rfl⟩

/-- **C3** (code bug): both vehicle-identification handlers crash on an
undefined name before sending anything — `lself.log_message` on the TCP path
(doip_server.py line 294) and bare `log_message` on the UDP path (line 178) —
so no `0x0004` reply is produced; the dead code below the crash would have
built the 32-byte payload `VIN | server_addr | EID | GID | 00` that the
claim describes. -/
theorem vehicle_identification_crashes :
    handle_vehicle_identification_request [] =
      ([], .error "NameError: name lself is not defined") ∧
    handle_udp_datagram [0x03, 0xFC, 0x00, 0x01, 0x00, 0x00, 0x00, 0x00] =
      ([], .error "NameError: name log_message is not defined") ∧
    tcp_session srvEmpty [0x03, 0xFC, 0x00, 0x01, 0x00, 0x00, 0x00, 0x00] =
      ([], .error "NameError: name lself is not defined") ∧
    vehicleIdentPayload 0x1001 =
      [0x31, 0x48, 0x47, 0x42, 0x48, 0x34, 0x31, 0x4A, 0x58, 0x4D, 0x4E,
       0x31, 0x30, 0x39, 0x31, 0x38, 0x36, 0x10, 0x01,
       0x01, 0x02, 0x03, 0x04, 0x05, 0x06,
       0x07, 0x08, 0x09, 0x0A, 0x0B, 0x0C, 0x00] ∧
    (vehicleIdentPayload 0x1001).length = 32 := by
  refine ⟨rfl, rfl, ?_, by decide, by decide⟩
  simp [tcp_session, process_tcp_doip_message,
    handle_vehicle_identification_request]

/-- **C7** (counterexample): the TCP frame
`00 00 00 05 00 00 00 07 | 0E 80 00 00 00 00 00` carries version `0x00` and
inverse-version `0x00`, so `inverse ^^^ version = 0x00 ≠ 0xFF`; the claim
says the connection is closed without processing the payload, yet the server
processes the routing activation and writes the `0x0006` response, ending
the session normally. -/
theorem bad_version_processed :
    ((0x00 : Nat) ^^^ 0x00) ≠ 0xFF ∧
    tcp_session srvEmpty ([0x00, 0x00, 0x00, 0x05, 0x00, 0x00, 0x00, 0x07] ++
        [0x0E, 0x80, 0x00, 0x00, 0x00, 0x00, 0x00]) =
      ([⟨0x0006, [0x0E, 0x80, 0x10, 0x01, 0x10, 0x00, 0x00, 0x00, 0x00]⟩],
        .ok ()) := by
  refine ⟨by decide, ?_⟩
  simp [tcp_session, process_tcp_doip_message,
    handle_routing_activation_request, srvEmpty, pack16]

/-- **C7** (amended): the server never validates the version and
inverse-version bytes: a frame with arbitrary version bytes — in particular
one with `inverse ^^^ version ≠ 0xFF` — is processed exactly as the same
frame with the well-formed version bytes `03 FC`, on both the TCP session
path and the UDP datagram path; no rejection ever happens on account of the
version bytes. -/
theorem version_bytes_never_checked (srv : Srv) (v iv t1 t2 l1 l2 l3 l4 : Nat)
    (body : List Nat) :
    tcp_session srv (v :: iv :: t1 :: t2 :: l1 :: l2 :: l3 :: l4 :: body) =
      tcp_session srv (DOIP_VERSION :: DOIP_INVERSE_VERSION :: t1 :: t2 ::
        l1 :: l2 :: l3 :: l4 :: body) ∧
    handle_udp_datagram (v :: iv :: t1 :: t2 :: l1 :: l2 :: l3 :: l4 ::
        body) =
      handle_udp_datagram (DOIP_VERSION :: DOIP_INVERSE_VERSION :: t1 :: t2 ::
        l1 :: l2 :: l3 :: l4 :: body) :=
  ⟨by rw [tcp_session, tcp_session], rfl⟩

/-- Unfolding one well-formed frame of the TCP receive loop when processing
succeeds: the messages it wrote come first, and the loop continues on the
rest of the stream. -/
theorem tcp_session_step_ok (srv : Srv) (payload_type : Nat)
    (payload rest : List Nat) (sent : List Msg)
    (ht : payload_type < 65536) (hl : payload.length < 4294967296)
    (hp : process_tcp_doip_message srv payload_type payload =
      (sent, .ok ())) :
    tcp_session srv (send_doip_message_bytes payload_type payload ++ rest) =
      (sent ++ (tcp_session srv rest).1, (tcp_session srv rest).2) := by
  have h16 : payload_type / 256 % 256 * 256 + payload_type % 256 =
      payload_type := by omega
  have h32 : ((payload.length / 16777216 % 256 * 256 +
      payload.length / 65536 % 256) * 256 +
      payload.length / 256 % 256) * 256 + payload.length % 256 =
      payload.length := by omega
  simp only [send_doip_message_bytes, pack16, pack32, List.cons_append,
    List.nil_append, DOIP_VERSION, DOIP_INVERSE_VERSION]
  rw [tcp_session]
  simp only [h16, h32, List.length_append, Nat.le_add_right, if_pos,
    List.take_left, List.drop_left, hp]

/-- **C10**: a TCP Diagnostic Message frame whose payload is shorter than
4 bytes produces neither an ACK nor a response and the session proceeds to
the next request on the stream; a payload of exactly 4 bytes (empty user
data) produces the ACK and nothing else, whatever the catalog. -/
theorem short_diagnostic_message_behaviour (srv : Srv)
    (payload rest : List Nat) (h : payload.length < 4) :
    tcp_session srv (send_doip_message_bytes 0x8001 payload ++ rest) =
      tcp_session srv rest ∧
    ∀ s1 s2 t1 t2 : Nat,
      handle_diagnostic_message srv [s1, s2, t1, t2] =
        ([⟨0x8002, pack16 (s1 * 256 + s2) ++ pack16 (t1 * 256 + t2) ++
          [0x00]⟩], .ok ()) := by
  constructor
  · rw [tcp_session_step_ok srv 0x8001 payload rest [] (by omega)
      (by omega) ?_]
    · simp
    · have hd := handle_diag_short srv payload h
      simp [process_tcp_doip_message, hd]
  · intro s1 s2 t1 t2
    rfl

/-- Witness for `short_diagnostic_message_behaviour`: a diagnostic frame
with the 2-byte payload `0E 80` followed by a routing activation frame, and
the exactly-4-byte payload `0E 80 10 01`. -/
theorem short_diagnostic_message_behaviour_witness :
    ([0x0E, 0x80] : List Nat).length < 4 ∧
    tcp_session srvEmpty (send_doip_message_bytes 0x8001 [0x0E, 0x80] ++
        [0x03, 0xFC, 0x00, 0x05, 0x00, 0x00, 0x00, 0x07,
         0x0E, 0x80, 0x00, 0x00, 0x00, 0x00, 0x00]) =
      tcp_session srvEmpty
        [0x03, 0xFC, 0x00, 0x05, 0x00, 0x00, 0x00, 0x07,
         0x0E, 0x80, 0x00, 0x00, 0x00, 0x00, 0x00] ∧
    handle_diagnostic_message srvEmpty [0x0E, 0x80, 0x10, 0x01] =
      ([⟨0x8002, pack16 (0x0E * 256 + 0x80) ++ pack16 (0x10 * 256 + 0x01) ++
        [0x00]⟩], .ok ()) :=
  ⟨by decide,
   (short_diagnostic_message_behaviour srvEmpty [0x0E, 0x80]
     [0x03, 0xFC, 0x00, 0x05, 0x00, 0x00, 0x00, 0x07,
      0x0E, 0x80, 0x00, 0x00, 0x00, 0x00, 0x00] (by decide)).1,
   (short_diagnostic_message_behaviour srvEmpty [0x0E, 0x80]
     [0x03, 0xFC, 0x00, 0x05, 0x00, 0x00, 0x00, 0x07,
      0x0E, 0x80, 0x00, 0x00, 0x00, 0x00, 0x00] (by decide)).2
     0x0E 0x80 0x10 0x01⟩

/-- **C2**: for every Diagnostic Message payload with at least the 4 address
bytes, the first message written is the `0x8002` ACK
`source | target | 0x00`, and everything written after it (if anything) is a
`0x8001` response — the ACK never follows a response. -/
theorem ack_written_first (srv : Srv) (s1 s2 t1 t2 : Nat)
    (user_data : List Nat) :
    ∃ tail, (handle_diagnostic_message srv
        (s1 :: s2 :: t1 :: t2 :: user_data)).1 =
      ⟨0x8002, pack16 (s1 * 256 + s2) ++ pack16 (t1 * 256 + t2) ++ [0x00]⟩ ::
        tail ∧
      ∀ m ∈ tail, m.payloadType = 0x8001 := by
  cases user_data with
  | nil => exact ⟨[], rfl, by simp⟩
  | cons a tl =>
    simp only [handle_diagnostic_message]
    split
    · exact ⟨[], rfl, by simp⟩
    · exact ⟨[], rfl, by simp⟩
    · split
      · exact ⟨[], rfl, by simp⟩
      · exact ⟨[⟨0x8001, _⟩], rfl, by simp⟩

/-- The default synthesizer suppresses TesterPresent (`sid 0x3E`) under both
physical and functional addressing (doip_server.py lines 390-393,
397-400). -/
theorem generate_default_3E_suppressed (rest : List Nat) (a : AddrType)
    (h : a ≠ .unknown) :
    generate_default_diagnostic_response (0x3E :: rest) a = .ok none := by
  cases a
  · rfl
  · rfl
  · exact absurd rfl h

/-- **C6**: a TesterPresent request (`sid 0x3E`) not found in the catalog,
addressed either physically or functionally, is suppressed: the client gets
the `0x8002` ACK and no `0x8001` response. -/
theorem tester_present_suppressed (srv : Srv) (s1 s2 t1 t2 : Nat)
    (rest : List Nat)
    (haddr : t1 * 256 + t2 = srv.server_addr ∨
      t1 * 256 + t2 = srv.server_addr_func)
    (hcat : dictGet srv.response_config (bytesToHexUpper (0x3E :: rest)) =
      none) :
    handle_diagnostic_message srv (s1 :: s2 :: t1 :: t2 :: 0x3E :: rest) =
      ([⟨0x8002, pack16 (s1 * 256 + s2) ++ pack16 (t1 * 256 + t2) ++
        [0x00]⟩], .ok ()) := by
  have hgen : ∀ a : AddrType, a ≠ AddrType.unknown →
      generate_diagnostic_response srv.response_config (0x3E :: rest) a =
        .ok none := by
    intro a h
    simp only [generate_diagnostic_response, List.length_cons]
    rw [if_neg (by omega), hcat]
    exact generate_default_3E_suppressed rest a h
  have haddrtype : (if t1 * 256 + t2 = srv.server_addr then AddrType.physical
      else if t1 * 256 + t2 = srv.server_addr_func then AddrType.functional
      else AddrType.unknown) ≠ AddrType.unknown := by
    rcases haddr with h | h
    · simp [h]
    · simp [h]
      split
      · simp
      · simp
  simp only [handle_diagnostic_message]
  rw [hgen _ haddrtype]

/-- Witness for `tester_present_suppressed`: the spec scenario
`src = 0E80`, `target = 1FFF` (functional), data `3E 80`, empty catalog. -/
theorem tester_present_suppressed_witness :
    ((0x1F : Nat) * 256 + 0xFF = srvEmpty.server_addr ∨
      (0x1F : Nat) * 256 + 0xFF = srvEmpty.server_addr_func) ∧
    dictGet srvEmpty.response_config (bytesToHexUpper (0x3E :: [0x80])) =
      none ∧
    handle_diagnostic_message srvEmpty
        [0x0E, 0x80, 0x1F, 0xFF, 0x3E, 0x80] =
      ([⟨0x8002, pack16 (0x0E * 256 + 0x80) ++ pack16 (0x1F * 256 + 0xFF) ++
        [0x00]⟩], .ok ()) :=
  ⟨Or.inr rfl, rfl,
   tester_present_suppressed srvEmpty 0x0E 0x80 0x1F 0xFF [0x80]
     (Or.inr rfl) rfl⟩

/-- **C1** (counterexample): `""` is a valid even-length hex string, but a
catalog entry whose `res` is `""` (or whose `req` is `""`) produces no
`0x8001` response at all: `bytes.fromhex` yields the empty (falsy) byte
string, which `handle_diagnostic_message` does not send; an empty `req`
means empty user data, which never reaches the responder. -/
theorem catalog_empty_entry_counterexample :
    dictGet srvEmptyEntries.response_config "3E80" = some "" ∧
    fromhex "" = some [] ∧
    (∀ m ∈ (handle_diagnostic_message srvEmptyEntries
        [0x0E, 0x80, 0x10, 0x01, 0x3E, 0x80]).1, m.payloadType ≠ 0x8001) ∧
    dictGet srvEmptyEntries.response_config "" = some "50" ∧
    (∀ m ∈ (handle_diagnostic_message srvEmptyEntries
        [0x0E, 0x80, 0x10, 0x01]).1, m.payloadType ≠ 0x8001) := by
  decide

/-- **C1** (amended): for every catalog entry `(req, res)` with `req`
non-empty and `res` a valid **non-empty** even-length hex string, a
Diagnostic Message whose user data is the byte form of `req` is answered
with a `0x8001` response whose UDS payload is the byte form of `res`,
wrapped with source `server_addr` and target the original source address,
after the `0x8002` ACK. -/
theorem catalog_hit_served (srv : Srv) (s1 s2 t1 t2 : Nat)
    (user_data rbytes : List Nat) (res_hex : String)
    (hne : user_data ≠ [])
    (hcat : dictGet srv.response_config (bytesToHexUpper user_data) =
      some res_hex)
    (hres : fromhex res_hex = some rbytes) (hrne : rbytes ≠ []) :
    handle_diagnostic_message srv (s1 :: s2 :: t1 :: t2 :: user_data) =
      ([⟨0x8002, pack16 (s1 * 256 + s2) ++ pack16 (t1 * 256 + t2) ++
          [0x00]⟩,
        ⟨0x8001, pack16 srv.server_addr ++ pack16 (s1 * 256 + s2) ++
          rbytes⟩], .ok ()) := by
  have hgen : ∀ a : AddrType,
      generate_diagnostic_response srv.response_config user_data a =
        .ok (some rbytes) := by
    intro a
    simp only [generate_diagnostic_response]
    rw [if_neg (by simp [hne])]
    simp only [hcat, hres]
  cases user_data with
  | nil => exact absurd rfl hne
  | cons u tl =>
    cases rbytes with
    | nil => exact absurd rfl hrne
    | cons r rs =>
      simp only [handle_diagnostic_message]
      rw [hgen _]

/-- The default server loaded with the spec scenario catalog entry
`req = "22f190"`, `res = "62F190414243"`. -/
def srvCatalog : Srv :=
  ⟨0x1001, 0x1FFF, load_response_config (.parsedList
    [("22f190", "62F190414243")])⟩

/-- Witness for `catalog_hit_served`: the spec scenario catalog entry
`22F190 ↦ 62F190414243`, physical addressing. -/
theorem catalog_hit_served_witness :
    ([0x22, 0xF1, 0x90] : List Nat) ≠ [] ∧
    dictGet srvCatalog.response_config
      (bytesToHexUpper [0x22, 0xF1, 0x90]) = some "62F190414243" ∧
    fromhex "62F190414243" = some [0x62, 0xF1, 0x90, 0x41, 0x42, 0x43] ∧
    ([0x62, 0xF1, 0x90, 0x41, 0x42, 0x43] : List Nat) ≠ [] ∧
    handle_diagnostic_message srvCatalog
        (0x0E :: 0x80 :: 0x10 :: 0x01 :: [0x22, 0xF1, 0x90]) =
      ([⟨0x8002, pack16 (0x0E * 256 + 0x80) ++ pack16 (0x10 * 256 + 0x01) ++
          [0x00]⟩,
        ⟨0x8001, pack16 srvCatalog.server_addr ++
          pack16 (0x0E * 256 + 0x80) ++
          [0x62, 0xF1, 0x90, 0x41, 0x42, 0x43]⟩], .ok ()) :=
  ⟨by decide, by decide, by decide, by decide,
   catalog_hit_served srvCatalog 0x0E 0x80 0x10 0x01 [0x22, 0xF1, 0x90]
     [0x62, 0xF1, 0x90, 0x41, 0x42, 0x43] "62F190414243"
     (by decide) (by decide) (by decide) (by decide)⟩

/-- Inserting under a key a cons head does not carry leaves the head
unchanged. -/
theorem dictInsert_cons_ne (a : String × String) (d : List (String × String))
    (k v : String) (h : (a.1 == k) = false) :
    dictInsert (a :: d) k v = a :: dictInsert d k v := by
  simp only [dictInsert, List.find?_cons, h]
  split
  · simp only [List.map_cons, List.cons.injEq]
    constructor
    · simp
      intro hh
      rw [hh] at h
      simp at h
    · trivial
  · simp

/-- Lookup skips a cons head whose key differs. -/
theorem dictGet_cons_ne (a : String × String) (d : List (String × String))
    (k : String) (h : (a.1 == k) = false) :
    dictGet (a :: d) k = dictGet d k := by
  simp only [dictGet, List.find?_cons, h]

/-- Lookup after insertion finds the inserted value. -/
theorem dictGet_dictInsert_self (d : List (String × String)) (k v : String) :
    dictGet (dictInsert d k v) k = some v := by
  induction d with
  | nil => simp [dictInsert, dictGet]
  | cons a d ih =>
    by_cases h : (a.1 == k) = true
    · have hfind : (List.find? (fun p => p.1 == k) (a :: d)).isSome = true := by
        simp [List.find?_cons, h]
      simp only [dictInsert, hfind, if_true, List.map_cons]
      have ha : (if (a.1 == k) = true then ((k, v) : String × String) else a) =
          (k, v) := by
        simp [h]
      simp only [ha]
      simp [dictGet, List.find?_cons]
    · have hb : (a.1 == k) = false := by simpa using h
      rw [dictInsert_cons_ne a d k v hb, dictGet_cons_ne a _ k hb]
      exact ih

/-- Every element of `dictInsert d k v` is an element of `d` or the inserted
pair. -/
theorem mem_dictInsert (p : String × String) (d : List (String × String))
    (k v : String) (hp : p ∈ dictInsert d k v) : p ∈ d ∨ p = (k, v) := by
  unfold dictInsert at hp
  split at hp
  · rcases List.mem_map.mp hp with ⟨q, hq, hfq⟩
    by_cases h : (q.1 == k) = true
    · right; rw [← hfq]; simp [h]
    · left
      have hb : (q.1 == k) = false := by simpa using h
      rw [← hfq]
      simpa [hb] using hq
  · rcases List.mem_append.mp hp with h | h
    · exact Or.inl h
    · right; simpa using h

/-- Every pair produced by the loader fold comes from the accumulator or
from an uppercased input record. -/
theorem load_foldl_mem (items : List (String × String)) :
    ∀ (d : List (String × String)) (p : String × String),
      p ∈ items.foldl
        (fun d item => dictInsert d (pyUpper item.1) (pyUpper item.2)) d →
      p ∈ d ∨ ∃ q ∈ items, p = (pyUpper q.1, pyUpper q.2) := by
  induction items with
  | nil => intro d p hp; exact Or.inl hp
  | cons it its ih =>
    intro d p hp
    simp only [List.foldl_cons] at hp
    rcases ih _ p hp with h | ⟨q, hq, hpq⟩
    · rcases mem_dictInsert p d _ _ h with h2 | h2
      · exact Or.inl h2
      · exact Or.inr ⟨it, by simp, h2⟩
    · exact Or.inr ⟨q, by simp [hq], hpq⟩

/-- **C9** (counterexample): the loader performs no hex validation: the
record `{req: "zz", res: "gg"}`, neither field a hex string, is not rejected
— it is stored (uppercased) and found by lookup. -/
theorem nonhex_entry_kept :
    fromhex "ZZ" = none ∧ fromhex "GG" = none ∧
    load_response_config (.parsedList [("zz", "gg")]) = [("ZZ", "GG")] ∧
    dictGet (load_response_config (.parsedList [("zz", "gg")])) "ZZ" =
      some "GG" := by
  decide

/-- **C9** (amended): the loader normalizes every key (and value) to
uppercase — every stored pair is the uppercased form of some input record —
but performs no hex validation; on duplicate keys the last entry wins; and a
missing file, a JSON parse error, or any other load failure leaves the
catalog empty. -/
theorem catalog_loader_behaviour :
    (∀ items : List (String × String),
      ∀ p ∈ load_response_config (.parsedList items),
        ∃ q ∈ items, p = (pyUpper q.1, pyUpper q.2)) ∧
    (∀ (items : List (String × String)) (r v : String),
      dictGet (load_response_config (.parsedList (items ++ [(r, v)])))
        (pyUpper r) = some (pyUpper v)) ∧
    load_response_config .fileNotFound = [] ∧
    load_response_config .jsonDecodeError = [] ∧
    load_response_config .otherError = [] := by
  refine ⟨?_, ?_, rfl, rfl, rfl⟩
  · intro items p hp
    rcases load_foldl_mem items [] p hp with h | h
    · exact absurd h (List.not_mem_nil p)
    · exact h
  · intro items r v
    simp only [load_response_config, List.foldl_append, List.foldl_cons,
      List.foldl_nil]
    exact dictGet_dictInsert_self _ _ _

/-- Witness for `catalog_loader_behaviour`: the loaded pair `("AB", "CD")`
comes from the record `("ab", "cd")`, and with two records keyed `1003` the
later value wins. -/
theorem catalog_loader_behaviour_witness :
    (∃ q ∈ [("ab", "cd")],
      (("AB", "CD") : String × String) = (pyUpper q.1, pyUpper q.2)) ∧
    dictGet (load_response_config
        (.parsedList ([("1003", "5003003201F4")] ++ [("1003", "50")])))
      (pyUpper "1003") = some (pyUpper "50") :=
  ⟨catalog_loader_behaviour.1 [("ab", "cd")] ("AB", "CD") (by decide),
   catalog_loader_behaviour.2.1 [("1003", "5003003201F4")] "1003" "50"⟩

end DoIPServer
